import Mathlib

/-!
Verification of the PE Investor Portal plugin system against its
natural-language specification.

The repository ships the plugin development guide, a hello-world sample
plugin and a Morpion (tic-tac-toe) plugin.  The engine itself (manifest
validator, lifecycle controller, capability broker, scoped storage, event
bus, dynamic loader) is documented but its implementation is not part of
the repository sources, so those components are modelled here from the
specification text.  The Morpion plugin logic is embedded directly from
its source file.
-/

namespace PluginCore

/-! ## Character-level string utilities

Lean core string functions such as splitOn or isPrefixOf do not reduce in
the kernel, so the manifest checks are implemented over the underlying
character lists. -/

/-- True for the characters allowed inside a kebab-case id segment,
namely lowercase ascii letters and digits. -/
def isIdChar (c : Char) : Bool :=
  (97 ≤ c.toNat && c.toNat ≤ 122) || (48 ≤ c.toNat && c.toNat ≤ 57)

/-- True for ascii digit characters. -/
def isDigitChar (c : Char) : Bool :=
  48 ≤ c.toNat && c.toNat ≤ 57

/-- Splits a character list on a separator character; the separator is not
kept and empty segments are preserved. -/
def splitOnChar (sep : Char) : List Char → List (List Char)
  | [] => [[]]
  | c :: cs =>
    match splitOnChar sep cs with
    | [] => if c = sep then [[], []] else [[c]]
    | r :: rs => if c = sep then [] :: r :: rs else (c :: r) :: rs

/-- Executable prefix test on character lists. -/
def listPre : List Char → List Char → Bool
  | [], _ => true
  | _ :: _, [] => false
  | a :: as, b :: bs => a == b && listPre as bs

/-- Executable string prefix test: does s start with p. -/
def strStartsWith (s p : String) : Bool :=
  listPre p.data s.data

/-- Modelled from the spec: the kebab-case id rule of validation check (c),
one or more lowercase alphanumeric segments separated by single hyphens. -/
def isKebab (s : String) : Bool :=
  (splitOnChar '-' s.data).all (fun seg => !seg.isEmpty && seg.all isIdChar)

/-- Numeric value of a digit list. -/
def digitsToNat (ds : List Char) : Nat :=
  ds.foldl (fun acc c => acc * 10 + (c.toNat - 48)) 0

/-- Parses a nonempty all-digit segment. -/
def parseNumSeg (seg : List Char) : Option Nat :=
  if !seg.isEmpty && seg.all isDigitChar then some (digitsToNat seg) else none

/-- Modelled from the spec: parse of a semantic-version literal
MAJOR.MINOR.PATCH with numeric components. -/
def parseSemver (s : String) : Option (Nat × Nat × Nat) :=
  match splitOnChar '.' s.data with
  | [a, b, c] =>
    match parseNumSeg a, parseNumSeg b, parseNumSeg c with
    | some x, some y, some z => some (x, y, z)
    | _, _, _ => none
  | _ => none

/-- True when the string is a valid semantic-version literal. -/
def isSemver (s : String) : Bool :=
  (parseSemver s).isSome

/-- Lexicographic order on parsed semantic versions. -/
def verLe (a b : Nat × Nat × Nat) : Bool :=
  a.1 < b.1 || (a.1 = b.1 && (a.2.1 < b.2.1 || (a.2.1 = b.2.1 && a.2.2 ≤ b.2.2)))

/-- Modelled from the spec: the version-range forms used by coreVersion and
plugin dependencies, namely a caret range, a greater-or-equal range, or an
exact semantic-version literal. -/
def isSemverRange (s : String) : Bool :=
  match s.data with
  | '>' :: '=' :: rest => (parseSemver (String.mk rest)).isSome
  | '^' :: rest => (parseSemver (String.mk rest)).isSome
  | _ => isSemver s

/-- Modelled from the spec: the range-matching rule shared by coreVersion
and dependency resolution.  A caret range fixes the major component and
requires at least the given version; a greater-or-equal range requires at
least the given version; a plain literal requires exact equality. -/
def satisfiesRange (version range : String) : Bool :=
  match parseSemver version with
  | none => false
  | some v =>
    match range.data with
    | '>' :: '=' :: rest =>
      match parseSemver (String.mk rest) with
      | some r => verLe r v
      | none => false
    | '^' :: rest =>
      match parseSemver (String.mk rest) with
      | some r => v.1 == r.1 && verLe r v
      | none => false
    | _ =>
      match parseSemver range with
      | some r => v == r
      | none => false

/-! ## Data model -/

/-- A menu item as declared in a plugin manifest. -/
structure MenuItem where
  id : String
  label : String
  itemType : String
  route : String
  order : Int
  permissions : List String
deriving DecidableEq

/-- A dashboard widget as declared in a plugin manifest. -/
structure Widget where
  id : String
  component : String
  slot : String
  order : Int
  permissions : List String
deriving DecidableEq

/-- A validated plugin manifest. -/
structure Manifest where
  id : String
  name : String
  version : String
  author : String
  coreVersion : String
  menus : List MenuItem
  widgets : List Widget
  depPlugins : List String
  hookOnInstall : Bool
  hookOnUpdate : Bool
  hookOnUninstall : Bool
deriving DecidableEq

/-- A raw manifest document before validation: the five required scalar
fields may be absent; optional arrays default to empty. -/
structure RawManifest where
  id : Option String
  name : Option String
  version : Option String
  author : Option String
  coreVersion : Option String
  menus : List MenuItem
  widgets : List Widget
  depPlugins : List String
  hookOnInstall : Bool
  hookOnUpdate : Bool
  hookOnUninstall : Bool
deriving DecidableEq

/-- An uploaded manifest document: either not a structured record at all,
or a structured record with possibly missing fields. -/
inductive ManifestDoc
  | notRecord
  | record (r : RawManifest)
deriving DecidableEq

/-- The validation error taxonomy of the manifest validator. -/
inductive ValidationError
  | notStructured
  | missingField (field : String)
  | invalidId (id : String)
  | invalidVersion (field : String) (value : String)
  | invalidRoute (route : String)
  | duplicateMenuIds
  | duplicateWidgetIds
deriving DecidableEq

/-! ## Manifest validator -/

/-- Modelled from the spec: validation check (b), one error naming each
absent required field (id, name, version, author, coreVersion). -/
def requiredErrors (r : RawManifest) : List ValidationError :=
  (if r.id.isNone then [ValidationError.missingField "id"] else []) ++
  (if r.name.isNone then [ValidationError.missingField "name"] else []) ++
  (if r.version.isNone then [ValidationError.missingField "version"] else []) ++
  (if r.author.isNone then [ValidationError.missingField "author"] else []) ++
  (if r.coreVersion.isNone then [ValidationError.missingField "coreVersion"] else [])

/-- Modelled from the spec: validation check (c), the id must be a
kebab-case token. -/
def idErrors (r : RawManifest) : List ValidationError :=
  match r.id with
  | none => []
  | some i => if isKebab i then [] else [ValidationError.invalidId i]

/-- Modelled from the spec: validation check (d), version is a semantic
version literal and coreVersion a semantic version range. -/
def versionErrors (r : RawManifest) : List ValidationError :=
  (match r.version with
   | none => []
   | some v => if isSemver v then [] else [ValidationError.invalidVersion "version" v]) ++
  (match r.coreVersion with
   | none => []
   | some cv => if isSemverRange cv then [] else [ValidationError.invalidVersion "coreVersion" cv])

/-- The mandatory route prefix of a plugin with the given id. -/
def routePre (id : String) : String :=
  "/plugins/" ++ id ++ "/"

/-- The menu items of the list whose route does not carry the mandatory
plugin route prefix. -/
def badRoutes (id : String) (menus : List MenuItem) : List MenuItem :=
  menus.filter (fun it => !(strStartsWith it.route (routePre id)))

/-- Modelled from the spec: validation check (e), every menu route starts
with the plugin route prefix; checkable only when the id is present. -/
def routeErrors (r : RawManifest) : List ValidationError :=
  match r.id with
  | none => []
  | some i => (badRoutes i r.menus).map (fun it => ValidationError.invalidRoute it.route)

/-- True when the list contains a repeated element. -/
def hasDupIds : List String → Bool
  | [] => false
  | x :: xs => xs.contains x || hasDupIds xs

/-- Modelled from the spec: validation check (f), menu ids and widget ids
are unique within their respective arrays. -/
def dupErrors (r : RawManifest) : List ValidationError :=
  (if hasDupIds (r.menus.map MenuItem.id) then [ValidationError.duplicateMenuIds] else []) ++
  (if hasDupIds (r.widgets.map Widget.id) then [ValidationError.duplicateWidgetIds] else [])

/-- All collected violations of a structured manifest record. -/
def validateErrors (r : RawManifest) : List ValidationError :=
  requiredErrors r ++ idErrors r ++ versionErrors r ++ routeErrors r ++ dupErrors r

/-- Modelled from the spec: the missing Manifest Validator component.
Short-circuits only on structural parse failure; otherwise all violations
of checks (b) through (f) are collected and reported together, and a
document with no violation yields the validated manifest. -/
def validate : ManifestDoc → Except (List ValidationError) Manifest
  | ManifestDoc.notRecord => Except.error [ValidationError.notStructured]
  | ManifestDoc.record r =>
    let errs := validateErrors r
    if errs.isEmpty then
      Except.ok
        { id := r.id.getD "", name := r.name.getD "", version := r.version.getD "",
          author := r.author.getD "", coreVersion := r.coreVersion.getD "",
          menus := r.menus, widgets := r.widgets, depPlugins := r.depPlugins,
          hookOnInstall := r.hookOnInstall, hookOnUpdate := r.hookOnUpdate,
          hookOnUninstall := r.hookOnUninstall }
    else Except.error errs

/-- The error list of a validation outcome; empty on success. -/
def errorsOf : Except (List ValidationError) Manifest → List ValidationError
  | Except.error es => es
  | Except.ok _ => []

/-! ## Registry, storage, event bus -/

/-- The four editable lifecycle states of a plugin record; DELETED is not a
state, deletion removes the record. -/
inductive PluginState
  | UPLOADED
  | INSTALLED
  | FAILED
  | UNINSTALLED
deriving DecidableEq

/-- The lifecycle error taxonomy: conflicts and state rejections leave the
registry untouched, while dependency, load and hook errors during install
are recorded on the plugin record. -/
inductive PluginError
  | notFound
  | conflict
  | invalidState
  | dependency (ref : String)
  | load (missing : List String)
  | hook (message : String)
deriving DecidableEq

/-- The unit of truth of the registry for one plugin. -/
structure PluginRecord where
  manifest : Manifest
  state : PluginState
  installedAt : Option Nat
  lastError : Option PluginError
deriving DecidableEq

/-- An event-bus subscription: the namespaced event name and the handler
identity, owned by the subscribing plugin. -/
structure Subscription where
  owner : String
  event : String
  handler : Nat
deriving DecidableEq

/-- A loaded plugin module described by its export surface. -/
structure Module where
  hasDefault : Bool
  namedExports : List String
deriving DecidableEq

/-- Modelled from the spec: the shared mutable state of the missing engine,
holding the registry records, the shared scoped-storage surface keyed by
plugin id and key, the event subscriptions, the aggregate menu and widget
lists tagged with their owning plugin, and the per-plugin binding tables. -/
structure EngineState where
  records : List (String × PluginRecord)
  storage : List ((String × String) × String)
  subs : List Subscription
  menus : List (String × MenuItem)
  widgets : List (String × Widget)
  bindings : List (String × List String)
deriving DecidableEq

/-- Association lookup by string key. -/
def lookupIn {α : Type} (rs : List (String × α)) (pid : String) : Option α :=
  (rs.find? (fun e => e.1 == pid)).map (fun e => e.2)

/-- Association update of an existing string key. -/
def setIn {α : Type} (rs : List (String × α)) (pid : String) (v : α) : List (String × α) :=
  rs.map (fun e => if e.1 == pid then (pid, v) else e)

/-- Modelled from the spec: the scoped-storage read of the Context; the
access is keyed by the owning plugin id and the requested key. -/
def getPluginData (pid key : String) (storage : List ((String × String) × String)) :
    Option String :=
  (storage.find? (fun e => e.1.1 == pid && e.1.2 == key)).map (fun e => e.2)

/-- Modelled from the spec: the scoped-storage write of the Context; the
entry is stored under the owning plugin id. -/
def setPluginData (pid key value : String) (storage : List ((String × String) × String)) :
    List ((String × String) × String) :=
  ((pid, key), value) :: storage.filter (fun e => !(e.1.1 == pid && e.1.2 == key))

/-- Modelled from the spec: the scoped-storage removal of the Context. -/
def removePluginData (pid key : String) (storage : List ((String × String) × String)) :
    List ((String × String) × String) :=
  storage.filter (fun e => !(e.1.1 == pid && e.1.2 == key))

/-- Modelled from the spec: clearPluginData, a scan-and-delete over the
namespace of the calling plugin only, never a shared-storage wipe. -/
def clearPluginData (pid : String) (storage : List ((String × String) × String)) :
    List ((String × String) × String) :=
  storage.filter (fun e => e.1.1 != pid)

/-- A storage operation available through the Context of a plugin. -/
inductive StorageOp
  | set (key value : String)
  | remove (key : String)
  | clear
deriving DecidableEq

/-- Applies one Context storage operation on behalf of the given plugin. -/
def applyStorageOp (pid : String) (storage : List ((String × String) × String)) :
    StorageOp → List ((String × String) × String)
  | StorageOp.set k v => setPluginData pid k v storage
  | StorageOp.remove k => removePluginData pid k storage
  | StorageOp.clear => clearPluginData pid storage

/-- Applies a sequence of Context storage operations for one plugin. -/
def applyStorageOps (pid : String) (ops : List StorageOp)
    (storage : List ((String × String) × String)) : List ((String × String) × String) :=
  ops.foldl (applyStorageOp pid) storage

/-- Modelled from the spec: the event-name rewrite applied by emitEvent,
prefixing the emitting plugin id so a plugin cannot impersonate another
event source. -/
def namespacedEvent (pid name : String) : String :=
  pid ++ ":" ++ name

/-- The ordered subscriptions dispatched for a published event name. -/
def dispatchTargets (subs : List Subscription) (eventName : String) : List Subscription :=
  subs.filter (fun s => s.event == eventName)

/-- Modelled from the spec: onEvent of the Context subscribes the handler
to any namespaced name, appending the subscription in registration order. -/
def onEvent (pid eventName : String) (handler : Nat) (subs : List Subscription) :
    List Subscription :=
  subs ++ [⟨pid, eventName, handler⟩]

/-- Modelled from the spec: emitEvent of the Context publishes under the
rewritten namespaced name; the result is the ordered list of subscriptions
the publish dispatches to. -/
def emitEvent (pid eventName : String) (subs : List Subscription) : List Subscription :=
  dispatchTargets subs (namespacedEvent pid eventName)

/-! ## Dynamic loader and lifecycle controller -/

/-- The names of a dependency reference pluginId at range, split at the
separator. -/
def parseDepRef (s : String) : Option (String × String) :=
  match splitOnChar '@' s.data with
  | [pid, range] => some (String.mk pid, String.mk range)
  | _ => none

/-- Modelled from the spec: one dependency reference is unsatisfied when it
is malformed, names a plugin id absent from the registry, or the registered
version does not satisfy the requested range. -/
def depUnsatisfied (st : EngineState) (ref : String) : Bool :=
  match parseDepRef ref with
  | none => true
  | some (pid, range) =>
    match lookupIn st.records pid with
    | none => true
    | some rec => !satisfiesRange rec.manifest.version range

/-- Modelled from the spec: install step (2), dependency resolution;
returns the first unsatisfied dependency reference if any. -/
def resolveDeps (st : EngineState) (deps : List String) : Option String :=
  deps.find? (depUnsatisfied st)

/-- Modelled from the spec: the export names the Dynamic Loader fails to
bind, collected in one aggregate list: every widget component must match a
named export exactly and every declared hook must be exported. -/
def unresolvedNames (mod : Module) (m : Manifest) : List String :=
  ((m.widgets.filter (fun w => !mod.namedExports.contains w.component)).map Widget.component) ++
  (if m.hookOnInstall && !mod.namedExports.contains "onInstall" then ["onInstall"] else []) ++
  (if m.hookOnUpdate && !mod.namedExports.contains "onUpdate" then ["onUpdate"] else []) ++
  (if m.hookOnUninstall && !mod.namedExports.contains "onUninstall" then ["onUninstall"] else [])

/-- Modelled from the spec: the missing Dynamic Loader; binding succeeds
when no name is unresolved, otherwise a single aggregate LoadError lists
all unresolved names. -/
def load (mod : Module) (m : Manifest) : Except PluginError (List String) :=
  let u := unresolvedNames mod m
  if u.isEmpty then Except.ok mod.namedExports else Except.error (PluginError.load u)

/-- Modelled from the spec: the outcome of invoking the declared onInstall
hook through a freshly issued Context.  The hook body is external plugin
code, abstracted as either a runtime error message or the scoped storage
writes it performs; when the manifest declares no install hook nothing
runs. -/
def runInstallHook (m : Manifest) (hookRun : Except String (List (String × String))) :
    Except String (List (String × String)) :=
  if m.hookOnInstall then hookRun else Except.ok []

/-- Rolls the record of a failed install to FAILED, retaining the error;
storage, subscriptions, aggregates and bindings are untouched. -/
def failWith (st : EngineState) (pid : String) (rec : PluginRecord) (e : PluginError) :
    EngineState :=
  { st with records := setIn st.records pid { rec with state := PluginState.FAILED, lastError := some e } }

/-- Modelled from the spec: install step (5), the commit: the record flips
to INSTALLED, the hook storage writes are applied through the scoped
storage, the aggregate menu and widget lists and the binding table are
republished for the plugin. -/
def commitInstall (st : EngineState) (pid : String) (rec : PluginRecord) (mod : Module)
    (writes : List (String × String)) (now : Nat) : EngineState :=
  { st with
    records := setIn st.records pid
      { rec with state := PluginState.INSTALLED, lastError := none, installedAt := some now },
    storage := writes.foldl (fun acc kv => setPluginData pid kv.1 kv.2 acc) st.storage,
    menus := st.menus.filter (fun e => e.1 != pid) ++ rec.manifest.menus.map (fun it => (pid, it)),
    widgets := st.widgets.filter (fun e => e.1 != pid) ++ rec.manifest.widgets.map (fun w => (pid, w)),
    bindings := (pid, mod.namedExports) :: st.bindings.filter (fun e => e.1 != pid) }

/-- Modelled from the spec: the install procedure of the missing Lifecycle
Controller.  An unknown id or an already INSTALLED plugin is rejected with
the registry untouched; then dependencies are resolved, the loader binds
exports, the declared onInstall hook runs through a fresh Context, and any
failure aborts to FAILED while success commits to INSTALLED. -/
def install (st : EngineState) (pid : String) (mod : Module)
    (hookRun : Except String (List (String × String))) (now : Nat) :
    EngineState × Except PluginError Unit :=
  match lookupIn st.records pid with
  | none => (st, Except.error PluginError.notFound)
  | some rec =>
    if rec.state = PluginState.INSTALLED then (st, Except.error PluginError.conflict)
    else
      match resolveDeps st rec.manifest.depPlugins with
      | some d => (failWith st pid rec (PluginError.dependency d),
                   Except.error (PluginError.dependency d))
      | none =>
        match load mod rec.manifest with
        | Except.error le => (failWith st pid rec le, Except.error le)
        | Except.ok _ =>
          match runInstallHook rec.manifest hookRun with
          | Except.error msg => (failWith st pid rec (PluginError.hook msg),
                                 Except.error (PluginError.hook msg))
          | Except.ok writes => (commitInstall st pid rec mod writes now, Except.ok ())

/-- Modelled from the spec: the uninstall procedure of the missing
Lifecycle Controller.  Only an INSTALLED plugin may be uninstalled; the
onUninstall hook outcome is best-effort (a failure is logged, never
blocking), every subscription owned by the plugin is released, the
aggregate menu and widget entries and bindings of the plugin are removed,
and the record commits to UNINSTALLED with storage and record retained. -/
def uninstall (st : EngineState) (pid : String) (hookOutcome : Option String) :
    EngineState × Except PluginError Unit :=
  match lookupIn st.records pid with
  | none => (st, Except.error PluginError.notFound)
  | some rec =>
    if rec.state = PluginState.INSTALLED then
      ({ st with
          records := setIn st.records pid { rec with state := PluginState.UNINSTALLED },
          subs := st.subs.filter (fun s => s.owner != pid),
          menus := st.menus.filter (fun e => e.1 != pid),
          widgets := st.widgets.filter (fun e => e.1 != pid),
          bindings := st.bindings.filter (fun e => e.1 != pid) },
        Except.ok ())
    else (st, Except.error PluginError.invalidState)

/-- Modelled from the spec: the delete operation of the missing Lifecycle
Controller, permitted only in the UPLOADED, FAILED or UNINSTALLED states;
it removes the record and purges the storage entries, subscriptions,
aggregate entries and bindings of the plugin id. -/
def deleteOp (st : EngineState) (pid : String) : EngineState × Except PluginError Unit :=
  match lookupIn st.records pid with
  | none => (st, Except.error PluginError.notFound)
  | some rec =>
    if rec.state = PluginState.UPLOADED ∨ rec.state = PluginState.FAILED ∨
        rec.state = PluginState.UNINSTALLED then
      ({ records := st.records.filter (fun e => e.1 != pid),
         storage := st.storage.filter (fun e => e.1.1 != pid),
         subs := st.subs.filter (fun s => s.owner != pid),
         menus := st.menus.filter (fun e => e.1 != pid),
         widgets := st.widgets.filter (fun e => e.1 != pid),
         bindings := st.bindings.filter (fun e => e.1 != pid) },
        Except.ok ())
    else (st, Except.error PluginError.invalidState)

/-- The outcome of an upload request. -/
inductive UploadResult
  | invalid (errs : List ValidationError)
  | conflict
  | accepted
deriving DecidableEq

/-- Modelled from the spec: the upload operation; the document is
validated, the id must not collide with a live record, and on success a
fresh record is registered in state UPLOADED.  Upload never touches
storage. -/
def upload (st : EngineState) (doc : ManifestDoc) : EngineState × UploadResult :=
  match validate doc with
  | Except.error errs => (st, UploadResult.invalid errs)
  | Except.ok m =>
    if (lookupIn st.records m.id).isSome then (st, UploadResult.conflict)
    else ({ st with records := st.records ++ [(m.id, ⟨m, PluginState.UPLOADED, none, none⟩)] },
          UploadResult.accepted)

end PluginCore

namespace Morpion

/-- The persisted score record of the Morpion plugin. -/
structure Scores where
  X : Nat
  O : Nat
  draws : Nat
deriving DecidableEq

/-- The default scores used when nothing is persisted yet. -/
def defaultScores : Scores := ⟨0, 0, 0⟩

/-- The reactive game state of the Morpion page together with the
persisted scores storage entry of the plugin. -/
structure MorpionState where
  board : List String
  currentPlayer : String
  gameOver : Bool
  winner : Option String
  moves : Nat
  scores : Option Scores
deriving DecidableEq

/-- readScores of the Morpion plugin: the persisted entry or the zero
record when nothing is stored. -/
def readScores (stored : Option Scores) : Scores :=
  stored.getD defaultScores

/-- updateScores of the Morpion plugin: reads the persisted scores, bumps
the X counter for an X win, the O counter for an O win and the draw
counter otherwise, and returns the record written back. -/
def updateScores (stored : Option Scores) (winnerSymbol : Option String) : Scores :=
  let sc := readScores stored
  if winnerSymbol = some "X" then { sc with X := sc.X + 1 }
  else if winnerSymbol = some "O" then { sc with O := sc.O + 1 }
  else { sc with draws := sc.draws + 1 }

/-- The eight winning index combinations of the Morpion board. -/
def winningCombos : List (Nat × Nat × Nat) :=
  [(0,1,2),(3,4,5),(6,7,8),(0,3,6),(1,4,7),(2,5,8),(0,4,8),(2,4,6)]

/-- The loop body of checkWin: the first combination whose three cells
hold the same nonempty symbol wins. -/
def checkWinAux (board : List String) : List (Nat × Nat × Nat) → Option String
  | [] => none
  | (a, b, c) :: rest =>
    if board.getD a "" ≠ "" ∧ board.getD a "" = board.getD b "" ∧
        board.getD a "" = board.getD c "" then some (board.getD a "")
    else checkWinAux board rest

/-- checkWin of the Morpion plugin. -/
def checkWin (board : List String) : Option String :=
  checkWinAux board winningCombos

/-- play of the Morpion plugin: ignores the move when the game is over or
the cell is occupied; otherwise marks the cell, counts the move, finishes
with a winner and a score update when a line is complete, finishes as a
draw with a score update on the ninth move, and otherwise passes the turn
to the other player. -/
def play (s : MorpionState) (idx : Nat) : MorpionState :=
  if s.gameOver = true ∨ s.board.getD idx "" ≠ "" then s
  else
    let board := s.board.set idx s.currentPlayer
    let moves := s.moves + 1
    match checkWin board with
    | some w =>
      { s with board := board, moves := moves, winner := some w, gameOver := true,
               scores := some (updateScores s.scores (some w)) }
    | none =>
      if moves = 9 then
        { s with board := board, moves := moves, gameOver := true,
                 scores := some (updateScores s.scores none) }
      else
        { s with board := board, moves := moves,
                 currentPlayer := if s.currentPlayer = "X" then "O" else "X" }

end Morpion

/-! ## Helper lemmas -/

namespace PluginCore

/-- Filtering with a predicate that only drops elements the search
predicate rejects does not change the result of the search. -/
theorem find?_filter_compat {α : Type} (p q : α → Bool) (l : List α)
    (h : ∀ e, q e = false → p e = false) :
    (l.filter q).find? p = l.find? p := by
  induction l with
  | nil => rfl
  | cons x xs ih =>
    rw [List.filter_cons]
    cases hq : q x with
    | true =>
      rw [if_pos rfl, List.find?_cons, List.find?_cons]
      cases hp : p x
      · exact ih
      · rfl
    | false =>
      rw [if_neg (by simp), List.find?_cons, h x hq]
      exact ih

/-- A search whose positives are all dropped by the filter finds nothing
in the filtered list. -/
theorem find?_filter_none {α : Type} (p q : α → Bool) (l : List α)
    (h : ∀ e, p e = true → q e = false) :
    (l.filter q).find? p = none := by
  rw [List.find?_eq_none]
  intro x hx hpx
  rcases List.mem_filter.mp hx with ⟨_, hqx⟩
  rw [h x hpx] at hqx
  cases hqx

/-- Updating a present key of an association list makes lookup return the
new value. -/
theorem lookupIn_set {α : Type} (rs : List (String × α)) (pid : String) (v : α)
    (h : (lookupIn rs pid).isSome = true) :
    lookupIn (setIn rs pid v) pid = some v := by
  induction rs with
  | nil => simp [lookupIn] at h
  | cons e es ih =>
    cases he : (e.1 == pid) with
    | true =>
      simp only [setIn, List.map_cons, he, if_true, lookupIn, List.find?_cons]
      simp
    | false =>
      simp only [setIn, List.map_cons, he, Bool.false_eq_true, if_false,
        lookupIn, List.find?_cons, he] at h ⊢
      simp only [lookupIn] at ih
      exact ih (by simpa [lookupIn] using h)

/-- Every storage entry of a foreign namespace is dropped by the
namespace purge, so a scoped read of the purged namespace finds
nothing. -/
theorem getPluginData_filter_out (pid k : String)
    (storage : List ((String × String) × String)) :
    getPluginData pid k (storage.filter (fun e => e.1.1 != pid)) = none := by
  unfold getPluginData
  rw [find?_filter_none]
  · rfl
  · intro e he
    have h1 : e.1.1 = pid := by
      have := (Bool.and_eq_true _ _).mp he
      exact beq_iff_eq.mp this.1
    simp [h1]

/-- One Context storage operation of one plugin never changes what a
different plugin reads. -/
theorem getPluginData_applyStorageOp (a b k : String) (hne : b ≠ a)
    (storage : List ((String × String) × String)) (op : StorageOp) :
    getPluginData b k (applyStorageOp a storage op) = getPluginData b k storage := by
  have hba : (a == b) = false := beq_eq_false_iff_ne.mpr (fun h => hne h.symm)
  cases op with
  | set key v =>
    unfold applyStorageOp setPluginData getPluginData
    rw [List.find?_cons]
    have hhead : ((((a, key), v) : (String × String) × String).1.1 == b &&
        (((a, key), v) : (String × String) × String).1.2 == k) = false := by
      simp only [hba, Bool.false_and]
    rw [hhead]
    rw [find?_filter_compat]
    intro e he
    have h1 : e.1.1 = a := by
      have h2 : (e.1.1 == a && e.1.2 == key) = true := by
        cases h3 : (e.1.1 == a && e.1.2 == key)
        · rw [h3] at he; cases he
        · rfl
      exact beq_iff_eq.mp ((Bool.and_eq_true _ _).mp h2).1
    have h4 : (e.1.1 == b) = false := by
      rw [h1]; exact hba
    simp only [h4, Bool.false_and]
  | remove key =>
    unfold applyStorageOp removePluginData getPluginData
    rw [find?_filter_compat]
    intro e he
    have h1 : e.1.1 = a := by
      have h2 : (e.1.1 == a && e.1.2 == key) = true := by
        cases h3 : (e.1.1 == a && e.1.2 == key)
        · rw [h3] at he; cases he
        · rfl
      exact beq_iff_eq.mp ((Bool.and_eq_true _ _).mp h2).1
    have h4 : (e.1.1 == b) = false := by
      rw [h1]; exact hba
    simp only [h4, Bool.false_and]
  | clear =>
    unfold applyStorageOp clearPluginData getPluginData
    rw [find?_filter_compat]
    intro e he
    have h1 : e.1.1 = a := by
      have h2 : (e.1.1 == a) = true := by
        cases h3 : (e.1.1 == a)
        · rw [bne, h3] at he; cases he
        · rfl
      exact beq_iff_eq.mp h2
    have h4 : (e.1.1 == b) = false := by
      rw [h1]; exact hba
    simp only [h4, Bool.false_and]

/-- A sequence of Context storage operations of one plugin never changes
what a different plugin reads. -/
theorem getPluginData_applyStorageOps (a b k : String) (hne : b ≠ a)
    (ops : List StorageOp) (storage : List ((String × String) × String)) :
    getPluginData b k (applyStorageOps a ops storage) = getPluginData b k storage := by
  induction ops generalizing storage with
  | nil => rfl
  | cons op ops ih =>
    unfold applyStorageOps at ih ⊢
    rw [List.foldl_cons, ih, getPluginData_applyStorageOp a b k hne storage op]

end PluginCore

namespace PluginCore

/-- The namespaced-event rewrite is injective in the emitting plugin id:
two different plugins never publish under the same rewritten name for the
same local event name. -/
theorem namespacedEvent_inj (a b x : String)
    (h : namespacedEvent a x = namespacedEvent b x) : a = b := by
  unfold namespacedEvent at h
  have h2 : (a ++ ":").data ++ x.data = (b ++ ":").data ++ x.data := by
    rw [← String.data_append, ← String.data_append, h]
  have h3 : (a ++ ":").data = (b ++ ":").data := List.append_cancel_right h2
  have h4 : a.data ++ (":" : String).data = b.data ++ (":" : String).data := by
    rw [← String.data_append, ← String.data_append]
    exact congrArg String.data (String.ext h3)
  exact String.ext (List.append_cancel_right h4)

end PluginCore

namespace Morpion

/-- A list read with a default either yields the default or an element of
the list. -/
theorem getD_default_or_mem {α : Type} (l : List α) (i : Nat) (d : α) :
    l.getD i d = d ∨ l.getD i d ∈ l := by
  induction l generalizing i with
  | nil => left; rw [List.getD_nil]
  | cons x xs ih =>
    cases i with
    | zero => right; rw [List.getD_cons_zero]; exact List.mem_cons_self x xs
    | succ n =>
      rw [List.getD_cons_succ]
      rcases ih n with h | h
      · left; exact h
      · right; exact List.mem_cons_of_mem x h

/-- A winner reported by the checkWin loop is a nonempty symbol read from
the board. -/
theorem checkWinAux_some (board : List String) (combos : List (Nat × Nat × Nat))
    (w : String) (h : checkWinAux board combos = some w) : w ≠ "" ∧ w ∈ board := by
  induction combos with
  | nil => cases h
  | cons t rest ih =>
    obtain ⟨a, b, c⟩ := t
    unfold checkWinAux at h
    split at h
    · rename_i hcond
      injection h with hw
      subst hw
      refine ⟨hcond.1, ?_⟩
      rcases getD_default_or_mem board a "" with hd | hm
      · exact absurd hd hcond.1
      · exact hm
    · exact ih h

end Morpion

/-- Claim C9: in the Morpion plugin, calling play when the game is over or
the chosen cell is already occupied leaves the whole game state unchanged,
including the board, the current player, the move counter, the winner, the
game-over flag and the persisted scores. -/
theorem morpion_play_rejected_noop (s : Morpion.MorpionState) (idx : Nat)
    (h : s.gameOver = true ∨ s.board.getD idx "" ≠ "") :
    Morpion.play s idx = s := by
  unfold Morpion.play
  rw [if_pos h]

/-- Witness for C9 at a concrete finished game and at a concrete occupied
cell: both calls return the state unchanged. -/
theorem morpion_play_rejected_noop_witness :
    Morpion.play
      { board := ["X","X","X","O","O","","","",""], currentPlayer := "O",
        gameOver := true, winner := some "X", moves := 5,
        scores := some ⟨1, 0, 0⟩ } 5 =
      { board := ["X","X","X","O","O","","","",""], currentPlayer := "O",
        gameOver := true, winner := some "X", moves := 5,
        scores := some ⟨1, 0, 0⟩ } ∧
    Morpion.play
      { board := ["X","O","","","","","","",""], currentPlayer := "X",
        gameOver := false, winner := none, moves := 2,
        scores := none } 1 =
      { board := ["X","O","","","","","","",""], currentPlayer := "X",
        gameOver := false, winner := none, moves := 2,
        scores := none } :=
  ⟨morpion_play_rejected_noop _ 5 (Or.inl rfl),
   morpion_play_rejected_noop _ 1 (Or.inr (by decide))⟩

/-- Claim C10: in the Morpion plugin, every finished game bumps exactly one
persisted score counter by exactly one — the X counter when X wins, the O
counter when O wins, the draw counter when the ninth move completes without
a winner — and leaves the other two counters unchanged. -/
theorem morpion_finished_game_scores (s : Morpion.MorpionState) (idx : Nat)
    (hgo : s.gameOver = false)
    (hwin : s.winner = none)
    (hcp : s.currentPlayer = "X" ∨ s.currentPlayer = "O")
    (hcells : ∀ c ∈ s.board, c = "" ∨ c = "X" ∨ c = "O")
    (hfin : (Morpion.play s idx).gameOver = true) :
    ((Morpion.play s idx).winner = some "X" ∧
       Morpion.readScores (Morpion.play s idx).scores =
         ⟨(Morpion.readScores s.scores).X + 1, (Morpion.readScores s.scores).O,
          (Morpion.readScores s.scores).draws⟩) ∨
    ((Morpion.play s idx).winner = some "O" ∧
       Morpion.readScores (Morpion.play s idx).scores =
         ⟨(Morpion.readScores s.scores).X, (Morpion.readScores s.scores).O + 1,
          (Morpion.readScores s.scores).draws⟩) ∨
    ((Morpion.play s idx).winner = none ∧
       Morpion.readScores (Morpion.play s idx).scores =
         ⟨(Morpion.readScores s.scores).X, (Morpion.readScores s.scores).O,
          (Morpion.readScores s.scores).draws + 1⟩) := by
  by_cases hg : (s.gameOver = true ∨ s.board.getD idx "" ≠ "")
  · unfold Morpion.play at hfin
    rw [if_pos hg, hgo] at hfin
    cases hfin
  · unfold Morpion.play at hfin ⊢
    rw [if_neg hg] at hfin ⊢
    cases hcw : Morpion.checkWin (s.board.set idx s.currentPlayer) with
    | some w =>
      have hcw2 := hcw
      unfold Morpion.checkWin at hcw2
      have hw := Morpion.checkWinAux_some _ _ _ hcw2
      have hwXO : w = "X" ∨ w = "O" := by
        rcases hw with ⟨hne2, hmem⟩
        rcases List.mem_or_eq_of_mem_set hmem with hm | he
        · rcases hcells w hm with h1 | h1 | h1
          · exact absurd h1 hne2
          · exact Or.inl h1
          · exact Or.inr h1
        · rcases hcp with h1 | h1
          · exact Or.inl (he.trans h1)
          · exact Or.inr (he.trans h1)
      simp only [hcw] at hfin ⊢
      rcases hwXO with hX | hO
      · subst hX
        left
        refine ⟨rfl, ?_⟩
        simp [Morpion.readScores, Morpion.updateScores]
      · subst hO
        right; left
        refine ⟨rfl, ?_⟩
        simp [Morpion.readScores, Morpion.updateScores]
    | none =>
      simp only [hcw] at hfin ⊢
      by_cases h9 : s.moves + 1 = 9
      · rw [if_pos h9] at hfin ⊢
        right; right
        refine ⟨hwin, ?_⟩
        simp [Morpion.readScores, Morpion.updateScores]
      · rw [if_neg h9] at hfin
        rw [hgo] at hfin
        cases hfin

/-- Witness for C10: a concrete game finished by X completing the top row
bumps exactly the X counter. -/
theorem morpion_finished_game_scores_witness :
    ((Morpion.play
        { board := ["X","X","","O","O","","","",""], currentPlayer := "X",
          gameOver := false, winner := none, moves := 4,
          scores := some ⟨2, 1, 3⟩ } 2).winner = some "X" ∧
       Morpion.readScores (Morpion.play
        { board := ["X","X","","O","O","","","",""], currentPlayer := "X",
          gameOver := false, winner := none, moves := 4,
          scores := some ⟨2, 1, 3⟩ } 2).scores = ⟨3, 1, 3⟩) ∨
    ((Morpion.play
        { board := ["X","X","","O","O","","","",""], currentPlayer := "X",
          gameOver := false, winner := none, moves := 4,
          scores := some ⟨2, 1, 3⟩ } 2).winner = some "O" ∧
       Morpion.readScores (Morpion.play
        { board := ["X","X","","O","O","","","",""], currentPlayer := "X",
          gameOver := false, winner := none, moves := 4,
          scores := some ⟨2, 1, 3⟩ } 2).scores = ⟨2, 2, 3⟩) ∨
    ((Morpion.play
        { board := ["X","X","","O","O","","","",""], currentPlayer := "X",
          gameOver := false, winner := none, moves := 4,
          scores := some ⟨2, 1, 3⟩ } 2).winner = none ∧
       Morpion.readScores (Morpion.play
        { board := ["X","X","","O","O","","","",""], currentPlayer := "X",
          gameOver := false, winner := none, moves := 4,
          scores := some ⟨2, 1, 3⟩ } 2).scores = ⟨2, 1, 4⟩) :=
  morpion_finished_game_scores _ 2 rfl rfl (Or.inl rfl) (by decide) (by decide)

namespace PluginCore

/-- Claim C3: all Context storage accesses are scoped to the owning plugin
id.  No sequence of storage operations performed through the Context of
plugin a can change what plugin b reads for any key, and clearPluginData
removes every entry of the calling namespace while any foreign namespace
is untouched by the operations. -/
theorem storage_scoped_isolation (a b : String) (hne : a ≠ b)
    (ops : List StorageOp) (storage : List ((String × String) × String)) (k : String) :
    getPluginData b k (applyStorageOps a ops storage) = getPluginData b k storage ∧
    getPluginData a k (clearPluginData a storage) = none := by
  constructor
  · exact getPluginData_applyStorageOps a b k (fun h => hne h.symm) ops storage
  · unfold clearPluginData
    exact getPluginData_filter_out a k storage

/-- Witness for C3: plugin alpha sets, removes and clears data while an
entry of plugin beta stays readable unchanged, and the alpha namespace is
emptied by its own clear. -/
theorem storage_scoped_isolation_witness :
    getPluginData "beta" "conf"
        (applyStorageOps "alpha"
          [StorageOp.set "conf" "1", StorageOp.remove "conf", StorageOp.clear,
           StorageOp.set "other" "2"]
          [(("beta", "conf"), "keep"), (("alpha", "conf"), "mine")]) =
      getPluginData "beta" "conf" [(("beta", "conf"), "keep"), (("alpha", "conf"), "mine")] ∧
    getPluginData "alpha" "conf"
        (clearPluginData "alpha" [(("beta", "conf"), "keep"), (("alpha", "conf"), "mine")]) =
      none :=
  storage_scoped_isolation "alpha" "beta" (by decide)
    [StorageOp.set "conf" "1", StorageOp.remove "conf", StorageOp.clear,
     StorageOp.set "other" "2"]
    [(("beta", "conf"), "keep"), (("alpha", "conf"), "mine")] "conf"

/-- Claim C4: emitEvent through the Context of plugin a publishes under
the rewritten namespaced name; a handler subscribed to the namespaced name
of a observes the dispatch while a handler subscribed to the namespaced
name of a different plugin b never does. -/
theorem emit_event_namespaced (a b x p q : String) (hne : a ≠ b)
    (h1 h2 : Nat) (subs0 : List Subscription) :
    emitEvent a x (onEvent p (namespacedEvent a x) h1 (onEvent q (namespacedEvent b x) h2 subs0)) =
      dispatchTargets
        (onEvent p (namespacedEvent a x) h1 (onEvent q (namespacedEvent b x) h2 subs0))
        (namespacedEvent a x) ∧
    (⟨p, namespacedEvent a x, h1⟩ : Subscription) ∈
      emitEvent a x (onEvent p (namespacedEvent a x) h1 (onEvent q (namespacedEvent b x) h2 subs0)) ∧
    (⟨q, namespacedEvent b x, h2⟩ : Subscription) ∉
      emitEvent a x (onEvent p (namespacedEvent a x) h1 (onEvent q (namespacedEvent b x) h2 subs0)) := by
  refine ⟨rfl, ?_, ?_⟩
  · unfold emitEvent dispatchTargets onEvent
    rw [List.mem_filter]
    constructor
    · simp
    · simp
  · intro hmem
    unfold emitEvent dispatchTargets at hmem
    have hpred := (List.mem_filter.mp hmem).2
    have heq : namespacedEvent b x = namespacedEvent a x := beq_iff_eq.mp hpred
    exact hne (namespacedEvent_inj a b x heq.symm)

/-- Witness for C4: with plugins alpha and beta and local event name tick,
the alpha-namespaced subscription is dispatched and the beta-namespaced
one is not. -/
theorem emit_event_namespaced_witness :
    emitEvent "alpha" "tick"
        (onEvent "sub1" (namespacedEvent "alpha" "tick") 1
          (onEvent "sub2" (namespacedEvent "beta" "tick") 2 [])) =
      dispatchTargets
        (onEvent "sub1" (namespacedEvent "alpha" "tick") 1
          (onEvent "sub2" (namespacedEvent "beta" "tick") 2 []))
        (namespacedEvent "alpha" "tick") ∧
    (⟨"sub1", namespacedEvent "alpha" "tick", 1⟩ : Subscription) ∈
      emitEvent "alpha" "tick"
        (onEvent "sub1" (namespacedEvent "alpha" "tick") 1
          (onEvent "sub2" (namespacedEvent "beta" "tick") 2 [])) ∧
    (⟨"sub2", namespacedEvent "beta" "tick", 2⟩ : Subscription) ∉
      emitEvent "alpha" "tick"
        (onEvent "sub1" (namespacedEvent "alpha" "tick") 1
          (onEvent "sub2" (namespacedEvent "beta" "tick") 2 [])) :=
  emit_event_namespaced "alpha" "beta" "tick" "sub1" "sub2" (by decide) 1 2 []

end PluginCore

namespace PluginCore

/-- Any collected violation appears in the reported error list of
validate. -/
theorem mem_errorsOf (r : RawManifest) (e : ValidationError)
    (h : e ∈ validateErrors r) :
    e ∈ errorsOf (validate (ManifestDoc.record r)) := by
  have hne2 : (validateErrors r).isEmpty = false := by
    cases hl : validateErrors r with
    | nil => rw [hl] at h; cases h
    | cons x xs => rfl
  unfold validate
  simp only [hne2, Bool.false_eq_true, if_false]
  exact h

/-- The menu item of the doc example of the hello-world plugin. -/
def helloWorldMenu : MenuItem :=
  { id := "hello-world-main-menu", label := "Hello World", itemType := "main",
    route := "/plugins/hello-world", order := 100, permissions := [] }

/-- The widget of the doc example of the hello-world plugin. -/
def helloWorldWidget : Widget :=
  { id := "hello-top-widget", component := "WelcomeBanner", slot := "dashboard-top",
    order := 1, permissions := [] }

/-- The manifest example of the hello-world plugin as shipped in the
repository guide: note the menu route lacks the plugin id suffix. -/
def helloWorldRaw : RawManifest :=
  { id := some "hello-world-plugin", name := some "Hello World Plugin",
    version := some "1.0.0", author := some "PE Investor Portal Team",
    coreVersion := some ">=1.0.0",
    menus := [helloWorldMenu], widgets := [helloWorldWidget],
    depPlugins := [], hookOnInstall := true, hookOnUpdate := false,
    hookOnUninstall := true }

/-- A small well-formed menu item used as a concrete valid input. -/
def demoMenu : MenuItem :=
  { id := "demo-main", label := "Demo", itemType := "main",
    route := "/plugins/demo/home", order := 1, permissions := [] }

/-- A small well-formed manifest document. -/
def demoRaw : RawManifest :=
  { id := some "demo", name := some "Demo", version := some "1.0.0",
    author := some "Dev", coreVersion := some ">=1.0.0",
    menus := [demoMenu], widgets := [], depPlugins := [],
    hookOnInstall := false, hookOnUpdate := false, hookOnUninstall := false }

/-- The validated manifest of the small well-formed document. -/
def demoManifest : Manifest :=
  { id := "demo", name := "Demo", version := "1.0.0", author := "Dev",
    coreVersion := ">=1.0.0", menus := [demoMenu], widgets := [], depPlugins := [],
    hookOnInstall := false, hookOnUpdate := false, hookOnUninstall := false }

/-- Claim C2: for a structured manifest document, each missing required
field yields a ValidationError naming that field, violations of the later
checks are collected alongside rather than short-circuited, and a document
with all required fields and no optional violation validates with zero
errors. -/
theorem validate_field_checks (r : RawManifest) :
    (r.id = none →
      ValidationError.missingField "id" ∈ errorsOf (validate (ManifestDoc.record r))) ∧
    (r.name = none →
      ValidationError.missingField "name" ∈ errorsOf (validate (ManifestDoc.record r))) ∧
    (r.version = none →
      ValidationError.missingField "version" ∈ errorsOf (validate (ManifestDoc.record r))) ∧
    (r.author = none →
      ValidationError.missingField "author" ∈ errorsOf (validate (ManifestDoc.record r))) ∧
    (r.coreVersion = none →
      ValidationError.missingField "coreVersion" ∈ errorsOf (validate (ManifestDoc.record r))) ∧
    (∀ i, r.id = some i → isKebab i = false →
      ValidationError.invalidId i ∈ errorsOf (validate (ManifestDoc.record r))) ∧
    (∀ v, r.version = some v → isSemver v = false →
      ValidationError.invalidVersion "version" v ∈ errorsOf (validate (ManifestDoc.record r))) ∧
    (∀ i it, r.id = some i → it ∈ r.menus → strStartsWith it.route (routePre i) = false →
      ValidationError.invalidRoute it.route ∈ errorsOf (validate (ManifestDoc.record r))) ∧
    (∀ i nm v au cv, r.id = some i → r.name = some nm → r.version = some v →
      r.author = some au → r.coreVersion = some cv →
      isKebab i = true → isSemver v = true → isSemverRange cv = true →
      (∀ it ∈ r.menus, strStartsWith it.route (routePre i) = true) →
      hasDupIds (r.menus.map MenuItem.id) = false →
      hasDupIds (r.widgets.map Widget.id) = false →
      validate (ManifestDoc.record r) = Except.ok
        { id := i, name := nm, version := v, author := au, coreVersion := cv,
          menus := r.menus, widgets := r.widgets, depPlugins := r.depPlugins,
          hookOnInstall := r.hookOnInstall, hookOnUpdate := r.hookOnUpdate,
          hookOnUninstall := r.hookOnUninstall }) := by
  refine ⟨?_, ?_, ?_, ?_, ?_, ?_, ?_, ?_, ?_⟩
  · intro h
    exact mem_errorsOf r _ (by simp [validateErrors, requiredErrors, h])
  · intro h
    exact mem_errorsOf r _ (by simp [validateErrors, requiredErrors, h])
  · intro h
    exact mem_errorsOf r _ (by simp [validateErrors, requiredErrors, h])
  · intro h
    exact mem_errorsOf r _ (by simp [validateErrors, requiredErrors, h])
  · intro h
    exact mem_errorsOf r _ (by simp [validateErrors, requiredErrors, h])
  · intro i hid hkeb
    exact mem_errorsOf r _ (by simp [validateErrors, idErrors, hid, hkeb])
  · intro v hv hsv
    exact mem_errorsOf r _ (by simp [validateErrors, versionErrors, hv, hsv])
  · intro i it hid hit hroute
    apply mem_errorsOf
    have hbr : it ∈ badRoutes i r.menus := by
      rw [badRoutes, List.mem_filter]
      exact ⟨hit, by rw [hroute]; rfl⟩
    have hmem : ValidationError.invalidRoute it.route ∈ routeErrors r := by
      simp only [routeErrors, hid]
      exact List.mem_map.mpr ⟨it, hbr, rfl⟩
    unfold validateErrors
    simp only [List.mem_append]
    exact Or.inl (Or.inr hmem)
  · intro i nm v au cv hid hnm hv hau hcv hkeb hsv hsr hroutes hdm hdw
    have h1 : requiredErrors r = [] := by simp [requiredErrors, hid, hnm, hv, hau, hcv]
    have h2 : idErrors r = [] := by simp [idErrors, hid, hkeb]
    have h3 : versionErrors r = [] := by simp [versionErrors, hv, hcv, hsv, hsr]
    have h4 : routeErrors r = [] := by
      simp only [routeErrors, hid]
      rw [List.map_eq_nil_iff, badRoutes, List.filter_eq_nil_iff]
      intro it hit
      rw [hroutes it hit]
      simp
    have h5 : dupErrors r = [] := by simp [dupErrors, hdm, hdw]
    have hemp : (validateErrors r).isEmpty = true := by
      unfold validateErrors
      rw [h1, h2, h3, h4, h5]
      rfl
    unfold validate
    simp only [hemp, if_true]
    simp [hid, hnm, hv, hau, hcv]

/-- Witness for C2: a document missing the id field reports a
ValidationError naming id, and the small well-formed document validates
with zero errors. -/
theorem validate_field_checks_witness :
    ValidationError.missingField "id" ∈ errorsOf (validate (ManifestDoc.record
      { id := none, name := some "X", version := some "1.0.0", author := some "A",
        coreVersion := some "1.0.0", menus := [], widgets := [], depPlugins := [],
        hookOnInstall := false, hookOnUpdate := false, hookOnUninstall := false })) ∧
    validate (ManifestDoc.record demoRaw) = Except.ok demoManifest :=
  ⟨(validate_field_checks _).1 rfl,
   (validate_field_checks demoRaw).2.2.2.2.2.2.2.2 "demo" "Demo" "1.0.0" "Dev" ">=1.0.0"
     rfl rfl rfl rfl rfl rfl rfl rfl (by decide) rfl rfl⟩

end PluginCore

namespace PluginCore

/-- Claim C8: every manifest accepted by validate has all menu routes
prefixed by the plugin route prefix, and the hello-world manifest example
shipped in the repository guide (id hello-world-plugin, menu route
/plugins/hello-world) fails validation check (e) with exactly an
invalid-route error. -/
theorem menu_routes_prefixed :
    (∀ d m2, validate d = Except.ok m2 →
      ∀ it ∈ m2.menus, strStartsWith it.route (routePre m2.id) = true) ∧
    validate (ManifestDoc.record helloWorldRaw) =
      Except.error [ValidationError.invalidRoute "/plugins/hello-world"] := by
  constructor
  · intro d m2 hok it hit
    cases d with
    | notRecord => simp [validate] at hok
    | record r =>
      simp only [validate] at hok
      cases hemp : (validateErrors r).isEmpty with
      | false =>
        rw [hemp] at hok
        simp at hok
      | true =>
        rw [hemp] at hok
        rw [if_pos rfl] at hok
        injection hok with hm2
        subst hm2
        have hval : validateErrors r = [] := List.isEmpty_iff.mp hemp
        unfold validateErrors at hval
        rcases List.append_eq_nil.mp hval with ⟨hval2, hdup⟩
        rcases List.append_eq_nil.mp hval2 with ⟨hval3, hroute⟩
        rcases List.append_eq_nil.mp hval3 with ⟨hval4, hver⟩
        rcases List.append_eq_nil.mp hval4 with ⟨hreq, hid2⟩
        obtain ⟨i, hid⟩ : ∃ i, r.id = some i := by
          cases hcase : r.id with
          | none =>
            rw [requiredErrors, hcase] at hreq
            simp at hreq
          | some i => exact ⟨i, rfl⟩
        have hall : ∀ it2 ∈ r.menus, strStartsWith it2.route (routePre i) = true := by
          simp only [routeErrors, hid] at hroute
          rw [List.map_eq_nil_iff, badRoutes, List.filter_eq_nil_iff] at hroute
          intro it2 hit2
          have hneg := hroute it2 hit2
          cases hsw : strStartsWith it2.route (routePre i) with
          | true => rfl
          | false => rw [hsw] at hneg; simp at hneg
        have hit2 : it ∈ r.menus := hit
        show strStartsWith it.route (routePre (r.id.getD "")) = true
        rw [hid, Option.getD_some]
        exact hall it hit2
  · rfl

/-- Witness for C8: the small well-formed document validates and its menu
route carries the mandatory prefix. -/
theorem menu_routes_prefixed_witness :
    strStartsWith demoMenu.route (routePre demoManifest.id) = true :=
  menu_routes_prefixed.1 (ManifestDoc.record demoRaw) demoManifest rfl demoMenu
    (List.mem_singleton.mpr rfl)

end PluginCore

namespace PluginCore

/-- Claim C1: whenever an install attempt on a registered, not currently
installed plugin fails — unsatisfied dependency, unresolved export
binding, or an exception in the onInstall hook — the record ends in state
FAILED with the error retained in lastError, the plugin is never left
INSTALLED, and storage, subscriptions, aggregate lists and bindings are
untouched by the aborted install. -/
theorem install_failure_atomic (st : EngineState) (pid : String) (mod : Module)
    (hookRun : Except String (List (String × String))) (now : Nat) (rec : PluginRecord)
    (hrec : lookupIn st.records pid = some rec)
    (hni : rec.state ≠ PluginState.INSTALLED)
    (e : PluginError)
    (hfail : (install st pid mod hookRun now).2 = Except.error e) :
    lookupIn (install st pid mod hookRun now).1.records pid =
      some { rec with state := PluginState.FAILED, lastError := some e } ∧
    (install st pid mod hookRun now).1.storage = st.storage ∧
    (install st pid mod hookRun now).1.subs = st.subs ∧
    (install st pid mod hookRun now).1.menus = st.menus ∧
    (install st pid mod hookRun now).1.widgets = st.widgets ∧
    (install st pid mod hookRun now).1.bindings = st.bindings := by
  have hsome : (lookupIn st.records pid).isSome = true := by rw [hrec]; rfl
  simp only [install, hrec] at hfail ⊢
  rw [if_neg hni] at hfail ⊢
  cases hdep : resolveDeps st rec.manifest.depPlugins with
  | some d =>
    simp only [hdep] at hfail ⊢
    injection hfail with he
    subst he
    exact ⟨lookupIn_set st.records pid _ hsome, rfl, rfl, rfl, rfl, rfl⟩
  | none =>
    simp only [hdep] at hfail ⊢
    cases hload : load mod rec.manifest with
    | error le =>
      simp only [hload] at hfail ⊢
      injection hfail with he
      subst he
      exact ⟨lookupIn_set st.records pid _ hsome, rfl, rfl, rfl, rfl, rfl⟩
    | ok exps =>
      simp only [hload] at hfail ⊢
      cases hhook : runInstallHook rec.manifest hookRun with
      | error msg =>
        simp only [hhook] at hfail ⊢
        injection hfail with he
        subst he
        exact ⟨lookupIn_set st.records pid _ hsome, rfl, rfl, rfl, rfl, rfl⟩
      | ok writes =>
        simp only [hhook] at hfail
        cases hfail

/-- The manifest of a concrete uploaded plugin depending on the absent
plugin base. -/
def depManifest : Manifest :=
  { id := "demo", name := "Demo", version := "1.0.0", author := "Dev",
    coreVersion := ">=1.0.0", menus := [], widgets := [],
    depPlugins := ["base@^2.0.0"], hookOnInstall := false, hookOnUpdate := false,
    hookOnUninstall := false }

/-- A concrete UPLOADED record for the dependent plugin. -/
def depRecord : PluginRecord :=
  { manifest := depManifest, state := PluginState.UPLOADED, installedAt := none,
    lastError := none }

/-- A concrete engine state holding only the dependent plugin and one of
its storage entries. -/
def depState : EngineState :=
  { records := [("demo", depRecord)], storage := [(("demo", "seed"), "1")], subs := [],
    menus := [], widgets := [], bindings := [] }

/-- A concrete module with no named exports. -/
def emptyModule : Module := { hasDefault := true, namedExports := [] }

/-- Witness for C1: installing the plugin that requires the absent plugin
base fails with a dependency error, the record rolls to FAILED retaining
the error, and storage and bindings are untouched. -/
theorem install_failure_atomic_witness :
    lookupIn (install depState "demo" emptyModule (Except.ok []) 0).1.records "demo" =
      some { depRecord with state := PluginState.FAILED, lastError := some (PluginError.dependency "base@^2.0.0") } ∧
    (install depState "demo" emptyModule (Except.ok []) 0).1.storage = depState.storage ∧
    (install depState "demo" emptyModule (Except.ok []) 0).1.subs = depState.subs ∧
    (install depState "demo" emptyModule (Except.ok []) 0).1.menus = depState.menus ∧
    (install depState "demo" emptyModule (Except.ok []) 0).1.widgets = depState.widgets ∧
    (install depState "demo" emptyModule (Except.ok []) 0).1.bindings = depState.bindings :=
  install_failure_atomic depState "demo" emptyModule (Except.ok []) 0 depRecord rfl
    (by decide) (PluginError.dependency "base@^2.0.0") rfl

/-- Claim C5: uninstalling an INSTALLED plugin always completes no matter
what the onUninstall hook does: the record commits to UNINSTALLED, every
subscription owned by the plugin is released and no other, its aggregate
menu and widget entries are removed, and neither its storage entries nor
its record are deleted. -/
theorem uninstall_always_completes (st : EngineState) (pid : String) (rec : PluginRecord)
    (hrec : lookupIn st.records pid = some rec)
    (hinst : rec.state = PluginState.INSTALLED)
    (hookOutcome : Option String) :
    (uninstall st pid hookOutcome).2 = Except.ok () ∧
    lookupIn (uninstall st pid hookOutcome).1.records pid =
      some { rec with state := PluginState.UNINSTALLED } ∧
    (uninstall st pid hookOutcome).1.subs = st.subs.filter (fun s2 => s2.owner != pid) ∧
    (∀ s2 ∈ (uninstall st pid hookOutcome).1.subs, s2.owner ≠ pid) ∧
    (∀ e2 ∈ (uninstall st pid hookOutcome).1.menus, e2.1 ≠ pid) ∧
    (∀ e2 ∈ (uninstall st pid hookOutcome).1.widgets, e2.1 ≠ pid) ∧
    (uninstall st pid hookOutcome).1.storage = st.storage := by
  have hsome : (lookupIn st.records pid).isSome = true := by rw [hrec]; rfl
  simp only [uninstall, hrec]
  rw [if_pos hinst]
  refine ⟨rfl, lookupIn_set st.records pid _ hsome, rfl, ?_, ?_, ?_, rfl⟩
  · intro s2 hs2
    exact bne_iff_ne.mp (List.mem_filter.mp hs2).2
  · intro e2 he2
    exact bne_iff_ne.mp (List.mem_filter.mp he2).2
  · intro e2 he2
    exact bne_iff_ne.mp (List.mem_filter.mp he2).2

/-- A concrete menu entry of the installed gadget plugin. -/
def gadgetMenu : MenuItem :=
  { id := "gadget-home", label := "Gadget", itemType := "main",
    route := "/plugins/gadget/home", order := 1, permissions := [] }

/-- The manifest of a concrete installed plugin. -/
def instManifest : Manifest :=
  { id := "gadget", name := "Gadget", version := "2.1.0", author := "Dev",
    coreVersion := ">=1.0.0", menus := [gadgetMenu], widgets := [], depPlugins := [],
    hookOnInstall := false, hookOnUpdate := false, hookOnUninstall := true }

/-- A concrete INSTALLED record. -/
def instRecord : PluginRecord :=
  { manifest := instManifest, state := PluginState.INSTALLED, installedAt := some 5,
    lastError := none }

/-- A concrete engine state with the installed gadget plugin, one of its
storage entries, one subscription it owns and one owned by another
plugin, and its aggregate entries. -/
def instState : EngineState :=
  { records := [("gadget", instRecord)],
    storage := [(("gadget", "installDate"), "2025")],
    subs := [⟨"gadget", "gadget:tick", 7⟩, ⟨"other", "gadget:tick", 8⟩],
    menus := [("gadget", gadgetMenu)], widgets := [],
    bindings := [("gadget", [])] }

/-- Witness for C5: uninstalling the gadget plugin while its onUninstall
hook throws still completes, releases exactly its subscription, clears its
aggregate entries and keeps its storage and record. -/
theorem uninstall_always_completes_witness :
    (uninstall instState "gadget" (some "boom")).2 = Except.ok () ∧
    lookupIn (uninstall instState "gadget" (some "boom")).1.records "gadget" =
      some { instRecord with state := PluginState.UNINSTALLED } ∧
    (uninstall instState "gadget" (some "boom")).1.subs =
      instState.subs.filter (fun s2 => s2.owner != "gadget") ∧
    (∀ s2 ∈ (uninstall instState "gadget" (some "boom")).1.subs, s2.owner ≠ "gadget") ∧
    (∀ e2 ∈ (uninstall instState "gadget" (some "boom")).1.menus, e2.1 ≠ "gadget") ∧
    (∀ e2 ∈ (uninstall instState "gadget" (some "boom")).1.widgets, e2.1 ≠ "gadget") ∧
    (uninstall instState "gadget" (some "boom")).1.storage = instState.storage :=
  uninstall_always_completes instState "gadget" instRecord rfl rfl (some "boom")

/-- Upload never touches the shared storage surface. -/
theorem upload_preserves_storage (st : EngineState) (doc : ManifestDoc) :
    (upload st doc).1.storage = st.storage := by
  unfold upload
  cases hv : validate doc with
  | error errs => rfl
  | ok m =>
    dsimp only
    cases hm : (lookupIn st.records m.id).isSome with
    | true => rfl
    | false => rfl

/-- Claim C6: delete is permitted exactly in the UPLOADED, FAILED and
UNINSTALLED states, and a successful delete purges every storage entry of
the plugin id: afterwards getPluginData returns not-found for every key,
and still does after any further upload, in particular a re-upload of the
same id. -/
theorem delete_purges_storage (st : EngineState) (pid : String) (rec : PluginRecord)
    (hrec : lookupIn st.records pid = some rec) :
    ((deleteOp st pid).2 = Except.ok () ↔
      (rec.state = PluginState.UPLOADED ∨ rec.state = PluginState.FAILED ∨
        rec.state = PluginState.UNINSTALLED)) ∧
    ((deleteOp st pid).2 = Except.ok () →
      (∀ k, getPluginData pid k (deleteOp st pid).1.storage = none) ∧
      (∀ doc k, getPluginData pid k (upload (deleteOp st pid).1 doc).1.storage = none)) := by
  simp only [deleteOp, hrec]
  by_cases hs : (rec.state = PluginState.UPLOADED ∨ rec.state = PluginState.FAILED ∨
      rec.state = PluginState.UNINSTALLED)
  · rw [if_pos hs]
    refine ⟨iff_of_true rfl hs, fun _ => ⟨?_, ?_⟩⟩
    · intro k
      exact getPluginData_filter_out pid k st.storage
    · intro doc k
      rw [upload_preserves_storage]
      exact getPluginData_filter_out pid k st.storage
  · rw [if_neg hs]
    refine ⟨iff_of_false (by simp) hs, ?_⟩
    intro h
    exact absurd h (by simp)

/-- A concrete FAILED record for the delete witness. -/
def failedRecord : PluginRecord :=
  { manifest := depManifest, state := PluginState.FAILED, installedAt := none,
    lastError := some (PluginError.dependency "base@^2.0.0") }

/-- A concrete engine state with a FAILED plugin owning one storage
entry. -/
def delState : EngineState :=
  { records := [("demo", failedRecord)], storage := [(("demo", "seed"), "1")],
    subs := [], menus := [], widgets := [], bindings := [] }

/-- Witness for C6: deleting the FAILED plugin succeeds, its stored entry
is gone, and it stays gone after re-uploading a manifest with the same
id. -/
theorem delete_purges_storage_witness :
    (deleteOp delState "demo").2 = Except.ok () ∧
    getPluginData "demo" "seed" (deleteOp delState "demo").1.storage = none ∧
    getPluginData "demo" "seed"
      (upload (deleteOp delState "demo").1 (ManifestDoc.record demoRaw)).1.storage = none :=
  ⟨(delete_purges_storage delState "demo" failedRecord rfl).1.mpr (Or.inr (Or.inl rfl)),
   ((delete_purges_storage delState "demo" failedRecord rfl).2
     ((delete_purges_storage delState "demo" failedRecord rfl).1.mpr
       (Or.inr (Or.inl rfl)))).1 "seed",
   ((delete_purges_storage delState "demo" failedRecord rfl).2
     ((delete_purges_storage delState "demo" failedRecord rfl).1.mpr
       (Or.inr (Or.inl rfl)))).2 (ManifestDoc.record demoRaw) "seed"⟩

/-- Claim C7: an install request on a plugin already INSTALLED is rejected
with a ConflictError, an uninstall request on a plugin not INSTALLED is
rejected, and in both cases the whole engine state, in particular the
record state, is unchanged. -/
theorem lifecycle_rejections (st : EngineState) (pid : String) (rec : PluginRecord)
    (hrec : lookupIn st.records pid = some rec) (mod : Module)
    (hookRun : Except String (List (String × String))) (now : Nat)
    (hookOutcome : Option String) :
    (rec.state = PluginState.INSTALLED →
      install st pid mod hookRun now = (st, Except.error PluginError.conflict)) ∧
    (rec.state ≠ PluginState.INSTALLED →
      uninstall st pid hookOutcome = (st, Except.error PluginError.invalidState)) := by
  constructor
  · intro h
    simp only [install, hrec]
    rw [if_pos h]
  · intro h
    simp only [uninstall, hrec]
    rw [if_neg h]

/-- Witness for C7: a second install of the installed gadget plugin is
rejected with a conflict, and uninstalling the merely UPLOADED demo plugin
is rejected; both leave the state untouched. -/
theorem lifecycle_rejections_witness :
    install instState "gadget" emptyModule (Except.ok []) 0 =
      (instState, Except.error PluginError.conflict) ∧
    uninstall depState "demo" none =
      (depState, Except.error PluginError.invalidState) :=
  ⟨(lifecycle_rejections instState "gadget" instRecord rfl emptyModule
      (Except.ok []) 0 none).1 rfl,
   (lifecycle_rejections depState "demo" depRecord rfl emptyModule
      (Except.ok []) 0 none).2 (by decide)⟩

end PluginCore
